import Mathlib

/-!
Shallow embedding of the notebook `0.0-flu-shot-learning-tutorial.ipynb`.

The notebook is a linear sequence of pandas / scikit-learn calls:
load four CSV tables, assert that the training feature index equals the
training label index, join the two training tables, build a preprocessing
(StandardScaler then median SimpleImputer on the non-object columns) and
logistic-regression pipeline, split, fit, predict probabilities, compute
ROC-AUC, refit on the full data, predict on the test set, assert that the
test index equals the submission-template index, overwrite the template's
two probability columns with the predicted probabilities, and write the
result to a CSV file.

The embedding has three layers:
* a pandas-style `DataFrame` data model with the index/column operations the
  notebook uses (`setCol` models `df[col] = values` including the pandas
  length check, `join` models `DataFrame.join`, `assertArrayEqual` models
  `np.testing.assert_array_equal`), and `runProgram`, a state-passing model
  of the notebook's sequence of mutating cells that returns the trace of
  variable stores together with the outcome;
* a real-valued model of the scikit-learn numeric pipeline: StandardScaler
  fitting (mean, and scale with the zero-variance guard), median
  SimpleImputer fitting on the scaled column, the logistic sigmoid and
  `predict_proba` of `MultiOutputClassifier(LogisticRegression(...))`, and
  the `ColumnTransformer` column selection with `remainder="drop"`;
* the ROC-AUC statistic used by `roc_auc_score` in its rank (Mann-Whitney)
  form, with the expected value of the statistic under independent
  uniformly random scores.
-/

namespace FluShot

/-- Dtype of a pandas column as the notebook distinguishes them: the
selection `features_df.dtypes != "object"` splits columns into float64
(numeric) and object (string) columns. -/
inductive Dtype where
  | float64
  | obj
deriving DecidableEq, Repr

/-- A cell of a pandas column: a numeric cell that may be missing (NaN is
`Cell.num none`) or a string cell of an object column. -/
inductive Cell (α : Type) where
  | num (x : Option α)
  | str (s : String)
deriving DecidableEq, Repr

/-- A named, dtyped pandas column. -/
structure Column (α : Type) where
  name : String
  dtype : Dtype
  cells : List (Cell α)
deriving DecidableEq, Repr

/-- A pandas DataFrame with `respondent_id` index: the index (row keys, in
order) and the list of columns, in order. -/
structure DataFrame (α : Type) where
  index : List ℤ
  cols : List (Column α)
deriving DecidableEq, Repr

/-- Column names of a frame, in order (`df.columns`). -/
def DataFrame.colNames {α : Type} (df : DataFrame α) : List String :=
  df.cols.map (fun c => c.name)

/-- Cells of the first column of the given name in a column list; the
empty list when no column matches. -/
def findColCells {α : Type} : String → List (Column α) → List (Cell α)
  | _, [] => []
  | n, c :: cs => if c.name = n then c.cells else findColCells n cs

/-- Cells of the named column (`df[name]`); the empty list when the column
is absent. -/
def DataFrame.getCol {α : Type} (df : DataFrame α) (n : String) : List (Cell α) :=
  findColCells n df.cols

/-- The float64 column an assignment `df[n] = vals` builds from a list of
values. -/
def newCol {α : Type} (n : String) (vals : List α) : Column α :=
  { name := n, dtype := Dtype.float64,
    cells := vals.map (fun v => Cell.num (some v)) }

/-- Overwrite a column in place when its name matches the assigned one,
leave it alone otherwise. -/
def replaceCol {α : Type} (n : String) (vals : List α) (c : Column α) : Column α :=
  if c.name = n then newCol n vals else c

/-- The successful effect of column assignment `df[n] = vals`: an existing
column of that name is overwritten in place (keeping its position) and an
absent one is appended at the end, with float64 dtype; the index is left
untouched. -/
def DataFrame.setColApply {α : Type} (df : DataFrame α) (n : String) (vals : List α) :
    DataFrame α :=
  { index := df.index,
    cols :=
      if df.cols.any (fun c => c.name = n) then
        df.cols.map (replaceCol n vals)
      else
        df.cols ++ [newCol n vals] }

/-- Column assignment `df[n] = vals` on a pandas frame: when the lengths
match it applies `setColApply`; when they differ pandas raises
`ValueError: Length of values does not match length of index`. -/
def DataFrame.setCol {α : Type} (df : DataFrame α) (n : String) (vals : List α) :
    Except String (DataFrame α) :=
  if vals.length = df.index.length then
    Except.ok (df.setColApply n vals)
  else
    Except.error "Length of values does not match length of index"

/-- The rows of a frame: one list of cells per index entry, reading each
column at that row position (missing positions read as NaN). -/
def DataFrame.rows {α : Type} (df : DataFrame α) : List (List (Cell α)) :=
  (List.range df.index.length).map (fun i =>
    df.cols.map (fun c => c.cells.getD i (Cell.num none)))

/-- Left join on the index, `features_df.join(labels_df)`: the left frame's
index and columns, followed by the right frame's columns realigned to the
left index (rows of the left index absent on the right become NaN). -/
def DataFrame.join {α : Type} (l r : DataFrame α) : DataFrame α :=
  { index := l.index,
    cols := l.cols ++ r.cols.map (fun c =>
      { name := c.name, dtype := c.dtype,
        cells := l.index.map (fun i =>
          match r.index.findIdx? (fun j => j = i) with
          | some j => c.cells.getD j (Cell.num none)
          | none => Cell.num none) }) }

/-- The empty frame, the value of a notebook variable before its cell has
run. -/
def emptyDF (α : Type) : DataFrame α := { index := [], cols := [] }

/-- Model of `np.testing.assert_array_equal a b`: it raises (aborting the
run) exactly when the two arrays differ in content or order, and is a
no-op when they are equal. -/
def assertArrayEqual (a b : List ℤ) : Except String Unit :=
  if a = b then Except.ok () else Except.error "Arrays are not equal"

/-- The store of DataFrame-valued notebook variables, together with the
list of files written by `to_csv` so far. -/
structure Store (α : Type) where
  features_df : DataFrame α
  labels_df : DataFrame α
  joined_df : DataFrame α
  test_features_df : DataFrame α
  submission_df : DataFrame α
  written : List (String × DataFrame α)
deriving DecidableEq, Repr

/-- The store right after the two training tables are loaded (cells reading
`training_set_features.csv` and `training_set_labels.csv`); the later
variables have not been assigned yet. -/
def initStore {α : Type} (features labels : DataFrame α) : Store α :=
  { features_df := features, labels_df := labels,
    joined_df := emptyDF α, test_features_df := emptyDF α,
    submission_df := emptyDF α, written := [] }

/-- State-passing model of the notebook's run, mirroring its cells in
order. `features`, `labels`, `test`, `template` are the four loaded CSV
tables; `fH` and `fS` are the fitted pipeline's per-row predicted
probabilities for `h1n1_vaccine` and `seasonal_vaccine` (the columns
`test_probas[0][:, 1]` and `test_probas[1][:, 1]` are their map over the
test rows). The cells in between (plots, split, fit, evaluation) read the
store but assign no DataFrame variable. Returns the trace of stores after
each assignment together with the outcome (`Except.error` when an
assertion or pandas raises). -/
def runProgram {α : Type} (features labels test template : DataFrame α)
    (fH fS : List (Cell α) → α) :
    List (Store α) × Except String Unit :=
  let s0 : Store α := initStore features labels
  match assertArrayEqual features.index labels.index with
  | Except.error e => ([s0], Except.error e)
  | Except.ok () =>
    let s1 : Store α := { s0 with joined_df := features.join labels }
    let s2 : Store α := { s1 with test_features_df := test }
    let s3 : Store α := { s2 with submission_df := template }
    match assertArrayEqual test.index template.index with
    | Except.error e => ([s0, s1, s2, s3], Except.error e)
    | Except.ok () =>
      match s3.submission_df.setCol "h1n1_vaccine" (test.rows.map fH) with
      | Except.error e => ([s0, s1, s2, s3], Except.error e)
      | Except.ok sub1 =>
        let s4 : Store α := { s3 with submission_df := sub1 }
        match sub1.setCol "seasonal_vaccine" (test.rows.map fS) with
        | Except.error e => ([s0, s1, s2, s3, s4], Except.error e)
        | Except.ok sub2 =>
          let s5 : Store α := { s4 with submission_df := sub2 }
          let s6 : Store α := { s5 with
            written := [("my_submission.csv", sub2)] }
          ([s0, s1, s2, s3, s4, s5, s6], Except.ok ())

/-- The store after the join cell (`joined_df = features_df.join(labels_df)`). -/
def store1 {α : Type} (features labels : DataFrame α) : Store α :=
  { initStore features labels with joined_df := features.join labels }

/-- The store after the test features are loaded. -/
def store2 {α : Type} (features labels test : DataFrame α) : Store α :=
  { store1 features labels with test_features_df := test }

/-- The store after the submission template is loaded. -/
def store3 {α : Type} (features labels test template : DataFrame α) : Store α :=
  { store2 features labels test with submission_df := template }

/-- The store after the first probability column assignment. -/
def store4 {α : Type} (features labels test template : DataFrame α)
    (fH : List (Cell α) → α) : Store α :=
  { store3 features labels test template with
    submission_df := template.setColApply "h1n1_vaccine" (test.rows.map fH) }

/-- The submission frame as it is written: the template with its two
probability columns overwritten by the predicted probabilities of the test
rows. -/
def finalSubmission {α : Type} (test template : DataFrame α)
    (fH fS : List (Cell α) → α) : DataFrame α :=
  (template.setColApply "h1n1_vaccine" (test.rows.map fH)).setColApply
    "seasonal_vaccine" (test.rows.map fS)

/-- The store after the second probability column assignment. -/
def store5 {α : Type} (features labels test template : DataFrame α)
    (fH fS : List (Cell α) → α) : Store α :=
  { store4 features labels test template fH with
    submission_df := finalSubmission test template fH fS }

/-- The store after `submission_df.to_csv(...)`. -/
def store6 {α : Type} (features labels test template : DataFrame α)
    (fH fS : List (Cell α) → α) : Store α :=
  { store5 features labels test template fH fS with
    written := [("my_submission.csv", finalSubmission test template fH fS)] }

/-- Observed (non-missing) values of a numeric column, in order; the
NaN-aware scikit-learn statistics are computed over these. -/
def obsVals (col : List (Option ℝ)) : List ℝ :=
  col.filterMap id

/-- Mean fitted by `StandardScaler` on a training column (NaNs ignored). -/
noncomputable def fitMean (col : List (Option ℝ)) : ℝ :=
  (obsVals col).sum / (obsVals col).length

/-- Population variance fitted by `StandardScaler` on a training column
(NaNs ignored, `ddof = 0`). -/
noncomputable def fitVar (col : List (Option ℝ)) : ℝ :=
  ((obsVals col).map (fun x => (x - fitMean col) ^ 2)).sum / (obsVals col).length

/-- Scale fitted by `StandardScaler`: the standard deviation, except that a
zero scale is replaced by 1 (`_handle_zeros_in_scale`), so the fitted scale
is always positive. -/
noncomputable def fitScale (col : List (Option ℝ)) : ℝ :=
  if fitVar col = 0 then 1 else Real.sqrt (fitVar col)

/-- The `StandardScaler` transform of one value with fitted mean `mu` and
scale `s`. -/
noncomputable def scaleVal (mu s x : ℝ) : ℝ :=
  (x - mu) / s

/-- A training column after the fitted `StandardScaler` transform; NaNs
pass through. -/
noncomputable def scaledCol (col : List (Option ℝ)) : List (Option ℝ) :=
  col.map (Option.map (scaleVal (fitMean col) (fitScale col)))

/-- The median as `np.median` computes it on a sorted copy: the middle
element for odd length, the mean of the two middle elements for even
length. -/
noncomputable def median (l : List ℝ) : ℝ :=
  if l.length % 2 = 1 then
    (l.mergeSort (fun a b => decide (a ≤ b))).getD (l.length / 2) 0
  else
    ((l.mergeSort (fun a b => decide (a ≤ b))).getD (l.length / 2 - 1) 0 +
      (l.mergeSort (fun a b => decide (a ≤ b))).getD (l.length / 2) 0) / 2

/-- The statistic fitted by `SimpleImputer(strategy="median")`, which in
the notebook's pipeline runs after the scaler and therefore takes the
median of the scaled observed values. -/
noncomputable def imputeStatistic (col : List (Option ℝ)) : ℝ :=
  median (obsVals (scaledCol col))

/-- The fitted state of the notebook's `numeric_preprocessing_steps`
pipeline for one column: scaler mean and scale, then the imputer's fill
statistic. -/
structure FittedNumeric where
  mu : ℝ
  sigma : ℝ
  fill : ℝ

/-- Fit `numeric_preprocessing_steps` (StandardScaler then median
SimpleImputer) on one training column. -/
noncomputable def fitColumn (col : List (Option ℝ)) : FittedNumeric :=
  { mu := fitMean col, sigma := fitScale col, fill := imputeStatistic col }

/-- Transform one cell through the fitted per-column pipeline: observed
values are scaled, missing values become the imputer's fill statistic. -/
noncomputable def transformCell (p : FittedNumeric) : Option ℝ → ℝ
  | some x => scaleVal p.mu p.sigma x
  | none => p.fill

/-- Transform one row through the fitted preprocessing, column by
column. -/
noncomputable def preprocessRow (ps : List FittedNumeric) (row : List (Option ℝ)) : List ℝ :=
  List.zipWith transformCell ps row

/-- Dot product of a coefficient vector with a feature row. -/
noncomputable def dot (w x : List ℝ) : ℝ :=
  (List.zipWith (fun a b => a * b) w x).sum

/-- The logistic sigmoid `expit`, which scikit-learn's binary
`LogisticRegression.predict_proba` applies to the decision value. -/
noncomputable def sigmoid (z : ℝ) : ℝ :=
  1 / (1 + Real.exp (-z))

/-- `predict_proba` of a fitted binary `LogisticRegression` on one
preprocessed row: the class-0 and class-1 probabilities, in that order. -/
noncomputable def predictProbaRow (w : List ℝ) (b : ℝ) (x : List ℝ) : List ℝ :=
  [1 - sigmoid (dot w x + b), sigmoid (dot w x + b)]

/-- `predict_proba` of `MultiOutputClassifier`: one `(n, 2)` array per
fitted estimator, each row of which is the binary `predict_proba` of that
estimator. -/
noncomputable def multiPredictProba (models : List (List ℝ × ℝ))
    (X : List (List ℝ)) : List (List (List ℝ)) :=
  models.map (fun m => X.map (fun x => predictProbaRow m.1 m.2 x))

/-- `predict_proba` of the notebook's `full_pipeline`: preprocess every
row, then apply the multi-output estimators. -/
noncomputable def pipelinePredictProba (prep : List FittedNumeric)
    (models : List (List ℝ × ℝ)) (X : List (List (Option ℝ))) :
    List (List (List ℝ)) :=
  multiPredictProba models (X.map (preprocessRow prep))

/-- The notebook's `numeric_cols`: the names of the columns whose dtype is
not object, in column order
(`features_df.columns[features_df.dtypes != "object"]`). -/
def numericCols {α : Type} (df : DataFrame α) : List String :=
  (df.cols.filter (fun c => c.dtype ≠ Dtype.obj)).map (fun c => c.name)

/-- Read a cell as a float: a string cell of an object column has no
numeric value. -/
def cellFloat : Cell ℝ → Option ℝ
  | Cell.num x => x
  | Cell.str _ => none

/-- The `ColumnTransformer` with `remainder="drop"`: from the input frame
it selects exactly the columns named in the fitted `numeric_cols` list, in
that order, and drops every other column. -/
def selectMatrix (ncols : List String) (df : DataFrame ℝ) :
    List (List (Option ℝ)) :=
  (List.range df.index.length).map (fun i =>
    ncols.map (fun n => cellFloat ((df.getCol n).getD i (Cell.num none))))

/-- `full_pipeline.predict_proba` applied to a DataFrame: the
`ColumnTransformer` column selection followed by the fitted preprocessing
and estimators. -/
noncomputable def pipelineDFPredict (prep : List FittedNumeric)
    (models : List (List ℝ × ℝ)) (ncols : List String) (df : DataFrame ℝ) :
    List (List (List ℝ)) :=
  pipelinePredictProba prep models (selectMatrix ncols df)

/-- The notebook's fixed seed, `RANDOM_SEED = 6`. -/
def RANDOM_SEED : ℕ := 6

/-- Modelled from the spec: the seeded shuffle inside
`train_test_split(..., shuffle=True, random_state=seed)` is not part of
this repository; the spec only requires it to be a deterministic function
of the seed, so it is modelled as a deterministic permutation of the row
positions driven by the seed. -/
def shuffledPositions (seed n : ℕ) : List ℕ :=
  (List.range n).map (fun i => (i + seed) % n)

/-- The number of evaluation rows taken by
`train_test_split(test_size=0.33)`: the ceiling of `0.33 * n`. -/
def nEval (n : ℕ) : ℕ :=
  (33 * n + 99) / 100

/-- `train_test_split(features_df, labels_df, test_size=0.33,
shuffle=True, random_state=seed)`: shuffle the rows with the seeded
permutation, then cut off the evaluation part. -/
def trainTestSplit (seed : ℕ) (X : List (List (Option ℝ)))
    (y : List (ℝ × ℝ)) :
    List (List (Option ℝ)) × List (List (Option ℝ)) ×
      List (ℝ × ℝ) × List (ℝ × ℝ) :=
  let perm := shuffledPositions seed X.length
  let Xs := perm.map (fun i => X.getD i [])
  let ys := perm.map (fun i => y.getD i (0, 0))
  (Xs.drop (nEval X.length), Xs.take (nEval X.length),
    ys.drop (nEval X.length), ys.take (nEval X.length))

/-- Modelled from the spec: the L-BFGS solver behind
`LogisticRegression.fit` is library code, not part of this repository; the
spec only requires the fit to be deterministic on fixed data, so the
fitted coefficients are modelled as a deterministic function of the
training data. -/
noncomputable def fitLR (X : List (List ℝ)) (y : List ℝ) : List ℝ × ℝ :=
  (X.transpose.map (fun col => ((col.zip y).map (fun p => p.1 * p.2)).sum),
    y.sum / y.length)

/-- Everything one modelling run of the notebook produces: the split, the
preprocessing and estimators fitted on the training part, the evaluation
predictions, the refit on the full data, and the test predictions. -/
structure MLRun where
  Xtrain : List (List (Option ℝ))
  Xeval : List (List (Option ℝ))
  ytrain : List (ℝ × ℝ)
  yeval : List (ℝ × ℝ)
  prep : List FittedNumeric
  modelH : List ℝ × ℝ
  modelS : List ℝ × ℝ
  evalPreds : List (List (List ℝ))
  prepFull : List FittedNumeric
  modelHFull : List ℝ × ℝ
  modelSFull : List ℝ × ℝ
  testPreds : List (List (List ℝ))

/-- The notebook's modelling cells in order: split with the given seed,
fit the pipeline on the training part, predict probabilities on the
evaluation part, refit the pipeline on the full data, predict
probabilities on the test set. -/
noncomputable def mlRun (X : List (List (Option ℝ))) (y : List (ℝ × ℝ))
    (test : List (List (Option ℝ))) (seed : ℕ) : MLRun :=
  let s := trainTestSplit seed X y
  let Xtr := s.1
  let Xev := s.2.1
  let ytr := s.2.2.1
  let yev := s.2.2.2
  let prep := Xtr.transpose.map fitColumn
  let Z := Xtr.map (preprocessRow prep)
  let mH := fitLR Z (ytr.map Prod.fst)
  let mS := fitLR Z (ytr.map Prod.snd)
  let prepF := X.transpose.map fitColumn
  let ZF := X.map (preprocessRow prepF)
  let mHF := fitLR ZF (y.map Prod.fst)
  let mSF := fitLR ZF (y.map Prod.snd)
  { Xtrain := Xtr, Xeval := Xev, ytrain := ytr, yeval := yev,
    prep := prep, modelH := mH, modelS := mS,
    evalPreds := pipelinePredictProba prep [mH, mS] Xev,
    prepFull := prepF, modelHFull := mHF, modelSFull := mSF,
    testPreds := pipelinePredictProba prepF [mHF, mSF] test }

/-- Contribution of one positive score `a` against one negative score `b`
to the rank form of the ROC-AUC statistic: 1 when the positive is ranked
above, 1/2 on a tie, 0 otherwise. -/
def pairScore (a b : ℚ) : ℚ :=
  if b < a then 1 else if a = b then 1 / 2 else 0

/-- The numerator of the rank (Mann-Whitney) form of `roc_auc_score`:
the pair scores summed over all positive-negative score pairs. -/
def aucSum (pos neg : List ℚ) : ℚ :=
  (pos.map (fun p => (neg.map (fun n => pairScore p n)).sum)).sum

/-- `roc_auc_score` in rank form: `pos` are the scores the predictor gives
the positive samples, `neg` those of the negative samples. -/
def rocAuc (pos neg : List ℚ) : ℚ :=
  aucSum pos neg / ((pos.length : ℚ) * (neg.length : ℚ))

/-- The expected ROC-AUC of a predictor whose scores are independent and
uniformly random over `k` equally likely values, for `P` positive and `N`
negative samples: the average of `rocAuc` over all score assignments. -/
def expAuc (P N k : ℕ) : ℚ :=
  (∑ f : Fin P → Fin k, ∑ g : Fin N → Fin k,
      rocAuc (List.ofFn (fun i => ((f i : ℕ) : ℚ)))
        (List.ofFn (fun j => ((g j : ℕ) : ℚ)))) /
    ((k : ℚ) ^ P * (k : ℚ) ^ N)

/-- The involution on pairs of score assignments that exchanges the score
of positive sample `i` with the score of negative sample `j`; it shows the
uniform score distribution is symmetric in each positive-negative pair. -/
def swapPair (P N k : ℕ) (i : Fin P) (j : Fin N) :
    ((Fin P → Fin k) × (Fin N → Fin k)) ≃ ((Fin P → Fin k) × (Fin N → Fin k)) where
  toFun p := (Function.update p.1 i (p.2 j), Function.update p.2 j (p.1 i))
  invFun p := (Function.update p.1 i (p.2 j), Function.update p.2 j (p.1 i))
  left_inv p := by
    refine Prod.ext ?_ ?_
    · show Function.update (Function.update p.1 i (p.2 j)) i
        (Function.update p.2 j (p.1 i) j) = p.1
      rw [Function.update_same, Function.update_idem, Function.update_eq_self]
    · show Function.update (Function.update p.2 j (p.1 i)) j
        (Function.update p.1 i (p.2 j) i) = p.2
      rw [Function.update_same, Function.update_idem, Function.update_eq_self]
  right_inv p := by
    refine Prod.ext ?_ ?_
    · show Function.update (Function.update p.1 i (p.2 j)) i
        (Function.update p.2 j (p.1 i) j) = p.1
      rw [Function.update_same, Function.update_idem, Function.update_eq_self]
    · show Function.update (Function.update p.2 j (p.1 i)) j
        (Function.update p.1 i (p.2 j) i) = p.2
      rw [Function.update_same, Function.update_idem, Function.update_eq_self]

lemma rows_length {α : Type} (df : DataFrame α) : df.rows.length = df.index.length := by
  simp [DataFrame.rows]

lemma setColApply_index {α : Type} (df : DataFrame α) (n : String) (vals : List α) :
    (df.setColApply n vals).index = df.index := rfl

lemma setCol_ok_of_length {α : Type} (df : DataFrame α) (n : String) (vals : List α)
    (h : vals.length = df.index.length) :
    df.setCol n vals = Except.ok (df.setColApply n vals) := by
  simp [DataFrame.setCol, h]

lemma replaceCol_name {α : Type} (n : String) (vals : List α) (c : Column α) :
    (replaceCol n vals c).name = c.name := by
  unfold replaceCol
  by_cases h : c.name = n
  · simp [h, newCol]
  · simp [h]

lemma mem_colNames_iff_any {α : Type} (df : DataFrame α) (n : String) :
    n ∈ df.colNames ↔ df.cols.any (fun c => c.name = n) = true := by
  constructor
  · intro h
    rcases List.mem_map.1 h with ⟨c, hc, hcn⟩
    exact List.any_eq_true.2 ⟨c, hc, decide_eq_true hcn⟩
  · intro h
    rcases List.any_eq_true.1 h with ⟨c, hc, hcn⟩
    exact List.mem_map.2 ⟨c, hc, of_decide_eq_true hcn⟩

lemma colNames_setColApply {α : Type} (df : DataFrame α) (n : String) (vals : List α)
    (h : n ∈ df.colNames) :
    (df.setColApply n vals).colNames = df.colNames := by
  have hany : df.cols.any (fun c => c.name = n) = true := (mem_colNames_iff_any df n).1 h
  simp only [DataFrame.setColApply, DataFrame.colNames, hany, if_pos, List.map_map]
  exact List.map_congr_left (fun c _ => replaceCol_name n vals c)

lemma findColCells_map_replace_ne {α : Type} (n m : String) (vals : List α)
    (cols : List (Column α)) (hmn : m ≠ n) :
    findColCells m (cols.map (replaceCol n vals)) = findColCells m cols := by
  induction cols with
  | nil => rfl
  | cons c cs ih =>
    by_cases hc : c.name = n
    · have h1 : replaceCol n vals c = newCol n vals := by simp [replaceCol, hc]
      have hnm : ¬(n = m) := fun h => hmn h.symm
      have hcm : ¬(c.name = m) := by rw [hc]; exact hnm
      simp [findColCells, h1, newCol, hnm, hcm, ih]
    · have h1 : replaceCol n vals c = c := by simp [replaceCol, hc]
      by_cases hm : c.name = m
      · simp [findColCells, h1, hm]
      · simp [findColCells, h1, hm, ih]

lemma findColCells_map_replace_self {α : Type} (n : String) (vals : List α)
    (cols : List (Column α)) (h : ∃ c ∈ cols, c.name = n) :
    findColCells n (cols.map (replaceCol n vals)) =
      vals.map (fun v => Cell.num (some v)) := by
  induction cols with
  | nil => simp at h
  | cons c cs ih =>
    by_cases hc : c.name = n
    · have h1 : replaceCol n vals c = newCol n vals := by simp [replaceCol, hc]
      simp [findColCells, h1, newCol]
    · have h1 : replaceCol n vals c = c := by simp [replaceCol, hc]
      have h2 : ∃ d ∈ cs, d.name = n := by
        rcases h with ⟨d, hd, hdn⟩
        rcases List.mem_cons.1 hd with rfl | hd2
        · exact absurd hdn hc
        · exact ⟨d, hd2, hdn⟩
      simp [findColCells, h1, hc, ih h2]

lemma findColCells_append_ne {α : Type} (n m : String) (vals : List α)
    (cols : List (Column α)) (hmn : m ≠ n) :
    findColCells m (cols ++ [newCol n vals]) = findColCells m cols := by
  induction cols with
  | nil => simp [findColCells, newCol, Ne.symm hmn]
  | cons c cs ih =>
    by_cases hm : c.name = m
    · simp [findColCells, hm]
    · simp [findColCells, hm, ih]

lemma getCol_setColApply_ne {α : Type} (df : DataFrame α) (n m : String) (vals : List α)
    (hmn : m ≠ n) :
    (df.setColApply n vals).getCol m = df.getCol m := by
  unfold DataFrame.getCol DataFrame.setColApply
  by_cases hany : df.cols.any (fun c => c.name = n) = true
  · simp only [hany, if_pos]
    exact findColCells_map_replace_ne n m vals df.cols hmn
  · simp only [hany, if_neg, Bool.not_eq_true]
    exact findColCells_append_ne n m vals df.cols hmn

lemma getCol_setColApply_self {α : Type} (df : DataFrame α) (n : String) (vals : List α)
    (h : n ∈ df.colNames) :
    (df.setColApply n vals).getCol n = vals.map (fun v => Cell.num (some v)) := by
  have hany : df.cols.any (fun c => c.name = n) = true := (mem_colNames_iff_any df n).1 h
  have hex : ∃ c ∈ df.cols, c.name = n := by
    simpa [List.any_eq_true] using hany
  unfold DataFrame.getCol DataFrame.setColApply
  simp only [hany, if_pos]
  exact findColCells_map_replace_self n vals df.cols hex

lemma runProgram_fail1 {α : Type} (features labels test template : DataFrame α)
    (fH fS : List (Cell α) → α) (h : features.index ≠ labels.index) :
    runProgram features labels test template fH fS =
      ([initStore features labels], Except.error "Arrays are not equal") := by
  simp [runProgram, assertArrayEqual, h]

lemma runProgram_fail2 {α : Type} (features labels test template : DataFrame α)
    (fH fS : List (Cell α) → α) (h1 : features.index = labels.index)
    (h2 : test.index ≠ template.index) :
    runProgram features labels test template fH fS =
      ([initStore features labels, store1 features labels,
        store2 features labels test, store3 features labels test template],
        Except.error "Arrays are not equal") := by
  simp [runProgram, assertArrayEqual, h1, h2, store1, store2, store3]

lemma runProgram_ok_eq {α : Type} (features labels test template : DataFrame α)
    (fH fS : List (Cell α) → α) (h1 : features.index = labels.index)
    (h2 : test.index = template.index) :
    runProgram features labels test template fH fS =
      ([initStore features labels, store1 features labels,
        store2 features labels test, store3 features labels test template,
        store4 features labels test template fH,
        store5 features labels test template fH fS,
        store6 features labels test template fH fS],
        Except.ok ()) := by
  have hlen1 : (test.rows.map fH).length = template.index.length := by
    simp [rows_length, ← h2]
  have hlen2 : (test.rows.map fS).length =
      (template.setColApply "h1n1_vaccine" (test.rows.map fH)).index.length := by
    simp [setColApply_index, rows_length, ← h2]
  simp [runProgram, assertArrayEqual, h1, h2, setCol_ok_of_length _ _ _ hlen1,
    setCol_ok_of_length _ _ _ hlen2, store1, store2, store3, store4, store5, store6,
    finalSubmission]

/-- C1: in every run in which the submission file is produced, the row-key
list (respondent identifiers) of the written submission table equals the
row-key list of the test feature table exactly and in the same order: the
program copies the template's keys, verifies them equal to the test keys,
and never alters the index before writing. -/
theorem C1_submission_index_equals_test_index {α : Type}
    (features labels test template : DataFrame α) (fH fS : List (Cell α) → α)
    (hok : (runProgram features labels test template fH fS).2 = Except.ok ()) :
    ∃ s, ((runProgram features labels test template fH fS).1).getLast? = some s ∧
      ∃ sub, s.written = [("my_submission.csv", sub)] ∧ sub.index = test.index := by
  by_cases h1 : features.index = labels.index
  · by_cases h2 : test.index = template.index
    · refine ⟨store6 features labels test template fH fS, ?_,
        finalSubmission test template fH fS, rfl, ?_⟩
      · rw [runProgram_ok_eq features labels test template fH fS h1 h2]
        rfl
      · exact h2.symm
    · rw [runProgram_fail2 features labels test template fH fS h1 h2] at hok
      simp at hok
  · rw [runProgram_fail1 features labels test template fH fS h1] at hok
    simp at hok

/-- Witness for C1 at a concrete run: two test rows with keys 7 and 8 and a
two-column template with the same keys. -/
theorem C1_witness :
    ∃ s, ((runProgram (⟨[10, 11], []⟩ : DataFrame ℚ) ⟨[10, 11], []⟩
        ⟨[7, 8], [⟨"x", Dtype.float64, [Cell.num (some 1), Cell.num (some 2)]⟩]⟩
        ⟨[7, 8], [⟨"h1n1_vaccine", Dtype.float64,
                    [Cell.num (some (1 / 2)), Cell.num (some (1 / 2))]⟩,
                  ⟨"seasonal_vaccine", Dtype.float64,
                    [Cell.num (some (1 / 2)), Cell.num (some (1 / 2))]⟩]⟩
        (fun _ => 1 / 4) (fun _ => 1 / 3)).1).getLast? = some s ∧
      ∃ sub, s.written = [("my_submission.csv", sub)] ∧ sub.index = [7, 8] :=
  C1_submission_index_equals_test_index _ _ _ _ _ _ rfl

/-- C3: the program's explicit failure checks are two equality assertions,
each aborting exactly when its two key arrays differ: `assertArrayEqual`
succeeds iff the arrays are equal and errors iff they differ; the run stops
right after loading (store unchanged) when the training feature index
differs from the training label index; given that first check passes, the
run errors iff the test feature index differs from the submission-template
index; and when both pairs are equal the assertions change nothing and the
run proceeds to completion. -/
theorem C3_assertions_abort_iff_arrays_differ :
    (∀ a b : List ℤ, assertArrayEqual a b = Except.ok () ↔ a = b) ∧
    (∀ a b : List ℤ, (∃ e, assertArrayEqual a b = Except.error e) ↔ a ≠ b) ∧
    (∀ (α : Type) (features labels test template : DataFrame α)
        (fH fS : List (Cell α) → α),
      features.index ≠ labels.index →
        runProgram features labels test template fH fS =
          ([initStore features labels], Except.error "Arrays are not equal")) ∧
    (∀ (α : Type) (features labels test template : DataFrame α)
        (fH fS : List (Cell α) → α),
      features.index = labels.index →
        ((∃ e, (runProgram features labels test template fH fS).2 =
            Except.error e) ↔ test.index ≠ template.index)) ∧
    (∀ (α : Type) (features labels test template : DataFrame α)
        (fH fS : List (Cell α) → α),
      features.index = labels.index → test.index = template.index →
        (runProgram features labels test template fH fS).2 = Except.ok ()) := by
  refine ⟨?_, ?_, ?_, ?_, ?_⟩
  · intro a b
    by_cases h : a = b <;> simp [assertArrayEqual, h]
  · intro a b
    by_cases h : a = b <;> simp [assertArrayEqual, h]
  · intro α features labels test template fH fS h
    exact runProgram_fail1 features labels test template fH fS h
  · intro α features labels test template fH fS h1
    constructor
    · rintro ⟨e, he⟩ h2
      rw [runProgram_ok_eq features labels test template fH fS h1 h2] at he
      simp at he
    · intro h2
      rw [runProgram_fail2 features labels test template fH fS h1 h2]
      exact ⟨"Arrays are not equal", rfl⟩
  · intro α features labels test template fH fS h1 h2
    rw [runProgram_ok_eq features labels test template fH fS h1 h2]

/-- Witness for C3 at concrete arrays and a concrete run. -/
theorem C3_witness :
    assertArrayEqual [1] [1] = Except.ok () ∧
    (∃ e, assertArrayEqual [1] [2] = Except.error e) ∧
    (runProgram (⟨[1], []⟩ : DataFrame ℚ) ⟨[1], []⟩ ⟨[], []⟩ ⟨[], []⟩
        (fun _ => 0) (fun _ => 0)).2 = Except.ok () :=
  ⟨(C3_assertions_abort_iff_arrays_differ.1 [1] [1]).2 rfl,
   (C3_assertions_abort_iff_arrays_differ.2.1 [1] [2]).2 (by decide),
   C3_assertions_abort_iff_arrays_differ.2.2.2.2 ℚ _ _ _ _ _ _ rfl rfl⟩

/-- C10: atomicity of the submission write: when the assertion comparing
the test feature index to the submission-template index fails, the run
errors, no submission file is written at any point of the trace, and the
template table in memory is left with its original column values, since
the two column assignments and the CSV write come strictly after the
assertion. -/
theorem C10_failed_assertion_writes_nothing {α : Type}
    (features labels test template : DataFrame α) (fH fS : List (Cell α) → α)
    (h1 : features.index = labels.index) (h2 : test.index ≠ template.index) :
    (∃ e, (runProgram features labels test template fH fS).2 = Except.error e) ∧
    (∀ s ∈ (runProgram features labels test template fH fS).1, s.written = []) ∧
    (∃ s, ((runProgram features labels test template fH fS).1).getLast? = some s ∧
      s.submission_df = template ∧ s.written = []) := by
  rw [runProgram_fail2 features labels test template fH fS h1 h2]
  refine ⟨⟨"Arrays are not equal", rfl⟩, ?_,
    ⟨store3 features labels test template, rfl, rfl, rfl⟩⟩
  intro s hs
  simp only [List.mem_cons, List.not_mem_nil, or_false] at hs
  rcases hs with rfl | rfl | rfl | rfl <;> rfl

/-- Witness for C10 at a concrete run whose test keys differ from the
template keys. -/
theorem C10_witness :
    (∃ e, (runProgram (⟨[1], []⟩ : DataFrame ℚ) ⟨[1], []⟩ ⟨[7], []⟩
        ⟨[8], []⟩ (fun _ => 0) (fun _ => 0)).2 = Except.error e) ∧
    (∀ s ∈ (runProgram (⟨[1], []⟩ : DataFrame ℚ) ⟨[1], []⟩ ⟨[7], []⟩
        ⟨[8], []⟩ (fun _ => 0) (fun _ => 0)).1, s.written = []) ∧
    (∃ s, ((runProgram (⟨[1], []⟩ : DataFrame ℚ) ⟨[1], []⟩ ⟨[7], []⟩
        ⟨[8], []⟩ (fun _ => 0) (fun _ => 0)).1).getLast? = some s ∧
      s.submission_df = ⟨[8], []⟩ ∧ s.written = []) :=
  C10_failed_assertion_writes_nothing _ _ _ _ _ _ rfl (by decide)

/-- C8: the loaded training feature table and label table are never
mutated at any point of the run: every store in the trace carries them
with their as-loaded contents, and every file the run persists is the
submission table of the store that wrote it. -/
theorem C8_loaded_tables_never_mutated {α : Type}
    (features labels test template : DataFrame α) (fH fS : List (Cell α) → α) :
    ∀ s ∈ (runProgram features labels test template fH fS).1,
      s.features_df = features ∧ s.labels_df = labels ∧
        ∀ p ∈ s.written, p.2 = s.submission_df := by
  by_cases h1 : features.index = labels.index
  · by_cases h2 : test.index = template.index
    · rw [runProgram_ok_eq features labels test template fH fS h1 h2]
      intro s hs
      simp only [List.mem_cons, List.not_mem_nil, or_false] at hs
      rcases hs with rfl | rfl | rfl | rfl | rfl | rfl | rfl <;>
        refine ⟨rfl, rfl, ?_⟩ <;> intro p hp <;>
        simp [initStore, store1, store2, store3, store4, store5, store6] at hp <;>
        simp [hp, store6, store5, finalSubmission]
    · rw [runProgram_fail2 features labels test template fH fS h1 h2]
      intro s hs
      simp only [List.mem_cons, List.not_mem_nil, or_false] at hs
      rcases hs with rfl | rfl | rfl | rfl <;>
        exact ⟨rfl, rfl, fun p hp => absurd hp (List.not_mem_nil p)⟩
  · rw [runProgram_fail1 features labels test template fH fS h1]
    intro s hs
    simp only [List.mem_cons, List.not_mem_nil, or_false] at hs
    rcases hs with rfl
    exact ⟨rfl, rfl, fun p hp => absurd hp (List.not_mem_nil p)⟩

/-- Witness for C8 at a concrete run and a concrete store of its trace. -/
theorem C8_witness :
    (initStore (⟨[1], []⟩ : DataFrame ℚ) ⟨[1], []⟩).features_df =
        (⟨[1], []⟩ : DataFrame ℚ) ∧
      (initStore (⟨[1], []⟩ : DataFrame ℚ) ⟨[1], []⟩).labels_df = ⟨[1], []⟩ ∧
      ∀ p ∈ (initStore (⟨[1], []⟩ : DataFrame ℚ) ⟨[1], []⟩).written,
        p.2 = (initStore (⟨[1], []⟩ : DataFrame ℚ) ⟨[1], []⟩).submission_df :=
  C8_loaded_tables_never_mutated ⟨[1], []⟩ ⟨[1], []⟩ ⟨[7], []⟩ ⟨[8], []⟩
    (fun _ => 0) (fun _ => 0) _ (by decide)

/-- C5: the written output frame has exactly the schema of the loaded
submission-format template: the same index (hence the same row count and
row order), the same column names in the same order, and relative to the
template only the two probability columns' values are changed; no column
is added, removed, or reordered. -/
theorem C5_output_schema_matches_template {α : Type}
    (features labels test template : DataFrame α) (fH fS : List (Cell α) → α)
    (hok : (runProgram features labels test template fH fS).2 = Except.ok ())
    (hH : "h1n1_vaccine" ∈ template.colNames)
    (hS : "seasonal_vaccine" ∈ template.colNames) :
    (∃ s, ((runProgram features labels test template fH fS).1).getLast? = some s ∧
      s.written = [("my_submission.csv", finalSubmission test template fH fS)]) ∧
    (finalSubmission test template fH fS).index = template.index ∧
    (finalSubmission test template fH fS).colNames = template.colNames ∧
    ∀ m, m ≠ "h1n1_vaccine" → m ≠ "seasonal_vaccine" →
      (finalSubmission test template fH fS).getCol m = template.getCol m := by
  by_cases h1 : features.index = labels.index
  · by_cases h2 : test.index = template.index
    · have hS2 : "seasonal_vaccine" ∈
          (template.setColApply "h1n1_vaccine" (test.rows.map fH)).colNames := by
        rw [colNames_setColApply template _ _ hH]
        exact hS
      refine ⟨⟨store6 features labels test template fH fS, ?_, rfl⟩, rfl, ?_, ?_⟩
      · rw [runProgram_ok_eq features labels test template fH fS h1 h2]
        rfl
      · unfold finalSubmission
        rw [colNames_setColApply _ _ _ hS2, colNames_setColApply _ _ _ hH]
      · intro m hm1 hm2
        unfold finalSubmission
        rw [getCol_setColApply_ne _ _ _ _ hm2, getCol_setColApply_ne _ _ _ _ hm1]
    · rw [runProgram_fail2 features labels test template fH fS h1 h2] at hok
      simp at hok
  · rw [runProgram_fail1 features labels test template fH fS h1] at hok
    simp at hok

/-- Witness for C5 at a concrete run: a template with the two probability
columns keeps its index and column names in the written output. -/
theorem C5_witness :
    (finalSubmission
        (⟨[7], [⟨"x", Dtype.float64, [Cell.num (some (1 : ℚ))]⟩]⟩ : DataFrame ℚ)
        ⟨[7], [⟨"h1n1_vaccine", Dtype.float64, [Cell.num (some ((1 : ℚ) / 2))]⟩,
               ⟨"seasonal_vaccine", Dtype.float64, [Cell.num (some ((1 : ℚ) / 2))]⟩]⟩
        (fun _ => 1 / 4) (fun _ => 1 / 3)).index = [7] ∧
    (finalSubmission
        (⟨[7], [⟨"x", Dtype.float64, [Cell.num (some (1 : ℚ))]⟩]⟩ : DataFrame ℚ)
        ⟨[7], [⟨"h1n1_vaccine", Dtype.float64, [Cell.num (some ((1 : ℚ) / 2))]⟩,
               ⟨"seasonal_vaccine", Dtype.float64, [Cell.num (some ((1 : ℚ) / 2))]⟩]⟩
        (fun _ => 1 / 4) (fun _ => 1 / 3)).colNames =
      ["h1n1_vaccine", "seasonal_vaccine"] := by
  have h := C5_output_schema_matches_template
      (⟨[10], []⟩ : DataFrame ℚ) ⟨[10], []⟩
      ⟨[7], [⟨"x", Dtype.float64, [Cell.num (some (1 : ℚ))]⟩]⟩
      ⟨[7], [⟨"h1n1_vaccine", Dtype.float64, [Cell.num (some ((1 : ℚ) / 2))]⟩,
             ⟨"seasonal_vaccine", Dtype.float64, [Cell.num (some ((1 : ℚ) / 2))]⟩]⟩
      (fun _ => 1 / 4) (fun _ => 1 / 3) rfl (by decide) (by decide)
  exact ⟨h.2.1, h.2.2.1⟩

lemma obsVals_map (f : ℝ → ℝ) (col : List (Option ℝ)) :
    obsVals (col.map (Option.map f)) = (obsVals col).map f := by
  induction col with
  | nil => rfl
  | cons c cs ih =>
    cases c with
    | none => simpa [obsVals] using ih
    | some a =>
      simp only [obsVals, List.map_cons, Option.map_some, List.filterMap_cons] at ih ⊢
      simp [ih]

lemma fitVar_nonneg (col : List (Option ℝ)) : 0 ≤ fitVar col := by
  unfold fitVar
  apply div_nonneg
  · apply List.sum_nonneg
    intro x hx
    rcases List.mem_map.1 hx with ⟨a, _, rfl⟩
    positivity
  · positivity

lemma fitScale_pos (col : List (Option ℝ)) : 0 < fitScale col := by
  unfold fitScale
  split
  · exact one_pos
  · next h => exact Real.sqrt_pos.2 ((fitVar_nonneg col).lt_of_ne (Ne.symm h))

lemma scaleVal_le_scaleVal (mu s : ℝ) (hs : 0 < s) {a b : ℝ} (h : a ≤ b) :
    scaleVal mu s a ≤ scaleVal mu s b := by
  unfold scaleVal
  exact (div_le_div_iff_of_pos_right hs).2 (by linarith)

lemma mergeSort_map_scaleVal (mu s : ℝ) (hs : 0 < s) (l : List ℝ) :
    (l.map (scaleVal mu s)).mergeSort (fun a b => decide (a ≤ b)) =
      (l.mergeSort (fun a b => decide (a ≤ b))).map (scaleVal mu s) := by
  apply List.eq_of_perm_of_sorted (r := (· ≤ ·))
  · exact (List.mergeSort_perm (l.map (scaleVal mu s)) _).trans
      (((List.mergeSort_perm l _).map (scaleVal mu s)).symm)
  · exact List.sorted_mergeSort' _
  · exact List.Pairwise.map _ (fun a b hab => scaleVal_le_scaleVal mu s hs hab)
      (List.sorted_mergeSort' l)

lemma getD_map_of_lt (f : ℝ → ℝ) (l : List ℝ) (i : ℕ) (h : i < l.length) :
    (l.map f).getD i 0 = f (l.getD i 0) := by
  have h2 : i < (l.map f).length := by simpa using h
  rw [List.getD_eq_getElem _ _ h2, List.getD_eq_getElem _ _ h, List.getElem_map]

lemma median_map_scaleVal (mu s : ℝ) (hs : 0 < s) (l : List ℝ) (hl : l ≠ []) :
    median (l.map (scaleVal mu s)) = scaleVal mu s (median l) := by
  have hn : 0 < l.length := List.length_pos.2 hl
  have hhalf : l.length / 2 < (l.mergeSort (fun a b => decide (a ≤ b))).length := by
    rw [List.length_mergeSort]
    exact Nat.div_lt_self hn (by norm_num)
  have hhalf1 : l.length / 2 - 1 < (l.mergeSort (fun a b => decide (a ≤ b))).length :=
    lt_of_le_of_lt (Nat.sub_le _ _) hhalf
  unfold median
  rw [List.length_map, mergeSort_map_scaleVal mu s hs l]
  by_cases hpar : l.length % 2 = 1
  · rw [if_pos hpar, if_pos hpar, getD_map_of_lt _ _ _ hhalf]
  · rw [if_neg hpar, if_neg hpar, getD_map_of_lt _ _ _ hhalf1,
      getD_map_of_lt _ _ _ hhalf]
    unfold scaleVal
    field_simp
    ring

/-- C6: the notebook's numeric preprocessing is the two-step pipeline of
standard scaling followed by median imputation, and the value it fills
into every missing cell of a column is the image under the fitted standard
scaling of the median of that column's observed training values — in
original units the fill value is exactly the column median. -/
theorem C6_missing_filled_with_scaled_median (col : List (Option ℝ))
    (h : obsVals col ≠ []) :
    transformCell (fitColumn col) none =
      scaleVal (fitMean col) (fitScale col) (median (obsVals col)) := by
  show imputeStatistic col = _
  unfold imputeStatistic scaledCol
  rw [obsVals_map, median_map_scaleVal _ _ (fitScale_pos col) _ h]

/-- Witness for C6 on a concrete one-cell column. -/
theorem C6_witness :
    transformCell (fitColumn [some (1 : ℝ)]) none =
      scaleVal (fitMean [some (1 : ℝ)]) (fitScale [some (1 : ℝ)])
        (median (obsVals [some (1 : ℝ)])) :=
  C6_missing_filled_with_scaled_median [some 1] (by simp [obsVals])

/-- C2: every probability the pipeline produces — each entry of every
`(n, 2)` array returned by `predict_proba` on any input matrix, and hence
each value placed in the two submission columns, which are the second
entries of those rows — lies in the closed interval `[0, 1]`. -/
theorem C2_probabilities_in_unit_interval (prep : List FittedNumeric)
    (models : List (List ℝ × ℝ)) (X : List (List (Option ℝ))) :
    ∀ arr ∈ pipelinePredictProba prep models X, ∀ row ∈ arr, ∀ p ∈ row,
      0 ≤ p ∧ p ≤ 1 := by
  intro arr harr row hrow p hp
  unfold pipelinePredictProba multiPredictProba at harr
  rcases List.mem_map.1 harr with ⟨m, _, rfl⟩
  rcases List.mem_map.1 hrow with ⟨x, _, rfl⟩
  have hd : (0 : ℝ) < 1 + Real.exp (-(dot m.1 x + m.2)) := by positivity
  have hs0 : 0 ≤ sigmoid (dot m.1 x + m.2) := by
    unfold sigmoid
    positivity
  have hs1 : sigmoid (dot m.1 x + m.2) ≤ 1 := by
    unfold sigmoid
    rw [div_le_one hd]
    have := Real.exp_pos (-(dot m.1 x + m.2))
    linarith
  simp only [predictProbaRow, List.mem_cons, List.not_mem_nil, or_false,
    List.mem_singleton] at hp
  rcases hp with rfl | rfl
  · constructor <;> linarith
  · exact ⟨hs0, hs1⟩

/-- Witness for C2 at a concrete one-estimator pipeline on one row. -/
theorem C2_witness :
    0 ≤ sigmoid (dot [] [] + 0) ∧ sigmoid (dot [] [] + 0) ≤ 1 :=
  C2_probabilities_in_unit_interval [] [([], 0)] [[]]
    [predictProbaRow [] 0 []]
    (by simp [pipelinePredictProba, multiPredictProba, preprocessRow])
    (predictProbaRow [] 0 []) (by simp)
    (sigmoid (dot [] [] + 0)) (by simp [predictProbaRow])

/-- C4: two modelling runs on the same input tables with the random seed
fixed at `RANDOM_SEED = 6` produce identical results throughout: the same
train/evaluation split, the same fitted pipeline, and the same evaluation
and test-set probabilities. -/
theorem C4_fixed_seed_determinism (X : List (List (Option ℝ)))
    (y : List (ℝ × ℝ)) (test : List (List (Option ℝ))) (seed1 seed2 : ℕ)
    (h1 : seed1 = RANDOM_SEED) (h2 : seed2 = RANDOM_SEED) :
    mlRun X y test seed1 = mlRun X y test seed2 := by
  rw [h1, h2]

/-- Witness for C4 at a concrete (empty) data set and the fixed seed. -/
theorem C4_witness : mlRun [] [] [] RANDOM_SEED = mlRun [] [] [] RANDOM_SEED :=
  C4_fixed_seed_determinism [] [] [] RANDOM_SEED RANDOM_SEED rfl rfl

/-- C9: noninterference of non-numeric features: the `ColumnTransformer`
selects only the columns named by `numeric_cols` (those whose dtype is not
object) and drops the remainder, so any two feature tables with the same
row count that agree on all the selected numeric columns — however their
other columns differ — yield identical pipeline predictions for every
fitted model. -/
theorem C9_object_columns_noninterference (prep : List FittedNumeric)
    (models : List (List ℝ × ℝ)) (train df1 df2 : DataFrame ℝ)
    (hlen : df1.index.length = df2.index.length)
    (hagree : ∀ n ∈ numericCols train, df1.getCol n = df2.getCol n) :
    pipelineDFPredict prep models (numericCols train) df1 =
      pipelineDFPredict prep models (numericCols train) df2 := by
  unfold pipelineDFPredict pipelinePredictProba
  suffices h : selectMatrix (numericCols train) df1 =
      selectMatrix (numericCols train) df2 by rw [h]
  unfold selectMatrix
  rw [hlen]
  apply List.map_congr_left
  intro i _
  apply List.map_congr_left
  intro n hn
  rw [hagree n hn]

/-- Witness for C9: two one-row tables sharing the numeric column `a` but
with different values in the object column `b`. -/
theorem C9_witness :
    pipelineDFPredict [⟨0, 1, 0⟩] [([1], 0)]
        (numericCols (⟨[5], [⟨"a", Dtype.float64, [Cell.num (some (1 : ℝ))]⟩,
          ⟨"b", Dtype.obj, [Cell.str "x"]⟩]⟩ : DataFrame ℝ))
        ⟨[5], [⟨"a", Dtype.float64, [Cell.num (some (1 : ℝ))]⟩,
          ⟨"b", Dtype.obj, [Cell.str "x"]⟩]⟩ =
      pipelineDFPredict [⟨0, 1, 0⟩] [([1], 0)]
        (numericCols (⟨[5], [⟨"a", Dtype.float64, [Cell.num (some (1 : ℝ))]⟩,
          ⟨"b", Dtype.obj, [Cell.str "x"]⟩]⟩ : DataFrame ℝ))
        ⟨[5], [⟨"a", Dtype.float64, [Cell.num (some (1 : ℝ))]⟩,
          ⟨"b", Dtype.obj, [Cell.str "y"]⟩]⟩ :=
  C9_object_columns_noninterference _ _ _ _ _ rfl
    (by
      intro n hn
      have he : numericCols (⟨[5], [⟨"a", Dtype.float64, [Cell.num (some (1 : ℝ))]⟩,
          ⟨"b", Dtype.obj, [Cell.str "x"]⟩]⟩ : DataFrame ℝ) = ["a"] := rfl
      rw [he] at hn
      simp only [List.mem_singleton] at hn
      subst hn
      rfl)

lemma pairScore_add_swap (a b : ℚ) : pairScore a b + pairScore b a = 1 := by
  unfold pairScore
  rcases lt_trichotomy a b with h | rfl | h
  · rw [if_neg (asymm h), if_neg h.ne, if_pos h]
    norm_num
  · rw [if_neg (lt_irrefl a), if_pos rfl]
    norm_num
  · rw [if_pos h, if_neg (asymm h), if_neg h.ne]
    norm_num

lemma sum_map_const_list (l : List ℚ) (c : ℚ) :
    (l.map (fun _ => c)).sum = l.length * c := by
  induction l with
  | nil => simp
  | cons a t ih =>
    simp only [List.map_cons, List.sum_cons, ih, List.length_cons]
    push_cast
    ring

lemma rocAuc_perfect (pos neg : List ℚ) (hp : pos ≠ []) (hn : neg ≠ [])
    (h : ∀ p ∈ pos, ∀ n ∈ neg, n < p) : rocAuc pos neg = 1 := by
  have hs : aucSum pos neg = (pos.length : ℚ) * neg.length := by
    unfold aucSum
    have hinner : ∀ p ∈ pos,
        (neg.map (fun n => pairScore p n)).sum = (neg.length : ℚ) := by
      intro p hp2
      have hmap : neg.map (fun n => pairScore p n) = neg.map (fun _ => (1 : ℚ)) :=
        List.map_congr_left (fun n hn2 => by
          unfold pairScore
          rw [if_pos (h p hp2 n hn2)])
      rw [hmap, sum_map_const_list, mul_one]
    rw [List.map_congr_left hinner, sum_map_const_list]
  have h1 : (pos.length : ℚ) ≠ 0 :=
    Nat.cast_ne_zero.2 (fun h0 => hp (List.length_eq_zero.1 h0))
  have h2 : (neg.length : ℚ) ≠ 0 :=
    Nat.cast_ne_zero.2 (fun h0 => hn (List.length_eq_zero.1 h0))
  unfold rocAuc
  rw [hs]
  field_simp

lemma sum_pairScore_uniform (P N k : ℕ) (i : Fin P) (j : Fin N) :
    (∑ f : Fin P → Fin k, ∑ g : Fin N → Fin k,
        pairScore ((f i : ℕ) : ℚ) ((g j : ℕ) : ℚ)) =
      ((k : ℚ) ^ P * (k : ℚ) ^ N) / 2 := by
  rw [← Fintype.sum_prod_type']
  have hswap : (∑ p : (Fin P → Fin k) × (Fin N → Fin k),
        pairScore ((p.1 i : ℕ) : ℚ) ((p.2 j : ℕ) : ℚ)) =
      ∑ p : (Fin P → Fin k) × (Fin N → Fin k),
        pairScore ((p.2 j : ℕ) : ℚ) ((p.1 i : ℕ) : ℚ) := by
    rw [← Equiv.sum_comp (swapPair P N k i j)
      (fun p => pairScore ((p.1 i : ℕ) : ℚ) ((p.2 j : ℕ) : ℚ))]
    apply Finset.sum_congr rfl
    intro p _
    simp [swapPair, Function.update_same]
  have hcard : Fintype.card ((Fin P → Fin k) × (Fin N → Fin k)) = k ^ P * k ^ N := by
    simp [Fintype.card_prod, Fintype.card_fun]
  have hdouble : (∑ p : (Fin P → Fin k) × (Fin N → Fin k),
        pairScore ((p.1 i : ℕ) : ℚ) ((p.2 j : ℕ) : ℚ)) +
      (∑ p : (Fin P → Fin k) × (Fin N → Fin k),
        pairScore ((p.2 j : ℕ) : ℚ) ((p.1 i : ℕ) : ℚ)) =
      (k : ℚ) ^ P * (k : ℚ) ^ N := by
    rw [← Finset.sum_add_distrib,
      Finset.sum_congr rfl (fun p _ => pairScore_add_swap
        ((p.1 i : ℕ) : ℚ) ((p.2 j : ℕ) : ℚ)),
      Finset.sum_const, Finset.card_univ, hcard, nsmul_eq_mul, mul_one]
    push_cast
    ring
  linarith

lemma expAuc_eq_half (P N k : ℕ) (hP : 0 < P) (hN : 0 < N) (hk : 0 < k) :
    expAuc P N k = 1 / 2 := by
  have hPQ : ((P : ℚ)) ≠ 0 := Nat.cast_ne_zero.2 hP.ne'
  have hNQ : ((N : ℚ)) ≠ 0 := Nat.cast_ne_zero.2 hN.ne'
  have hkQ : ((k : ℚ)) ≠ 0 := Nat.cast_ne_zero.2 hk.ne'
  have hkP : ((k : ℚ)) ^ P ≠ 0 := pow_ne_zero _ hkQ
  have hkN : ((k : ℚ)) ^ N ≠ 0 := pow_ne_zero _ hkQ
  unfold expAuc
  have hterm : ∀ (f : Fin P → Fin k) (g : Fin N → Fin k),
      rocAuc (List.ofFn (fun i => ((f i : ℕ) : ℚ)))
          (List.ofFn (fun j => ((g j : ℕ) : ℚ))) =
        (∑ i : Fin P, ∑ j : Fin N,
            pairScore ((f i : ℕ) : ℚ) ((g j : ℕ) : ℚ)) / ((P : ℚ) * (N : ℚ)) := by
    intro f g
    unfold rocAuc aucSum
    simp only [List.length_ofFn, List.map_ofFn, List.sum_ofFn, Function.comp]
  simp only [hterm]
  simp only [← Finset.sum_div]
  have hcomm : (∑ f : Fin P → Fin k, ∑ g : Fin N → Fin k, ∑ i : Fin P, ∑ j : Fin N,
        pairScore ((f i : ℕ) : ℚ) ((g j : ℕ) : ℚ)) =
      ∑ i : Fin P, ∑ j : Fin N, ∑ f : Fin P → Fin k, ∑ g : Fin N → Fin k,
        pairScore ((f i : ℕ) : ℚ) ((g j : ℕ) : ℚ) :=
    calc (∑ f : Fin P → Fin k, ∑ g : Fin N → Fin k, ∑ i : Fin P, ∑ j : Fin N,
          pairScore ((f i : ℕ) : ℚ) ((g j : ℕ) : ℚ))
        = ∑ f : Fin P → Fin k, ∑ i : Fin P, ∑ g : Fin N → Fin k, ∑ j : Fin N,
            pairScore ((f i : ℕ) : ℚ) ((g j : ℕ) : ℚ) :=
          Finset.sum_congr rfl (fun f _ => Finset.sum_comm)
      _ = ∑ i : Fin P, ∑ f : Fin P → Fin k, ∑ g : Fin N → Fin k, ∑ j : Fin N,
            pairScore ((f i : ℕ) : ℚ) ((g j : ℕ) : ℚ) := Finset.sum_comm
      _ = ∑ i : Fin P, ∑ f : Fin P → Fin k, ∑ j : Fin N, ∑ g : Fin N → Fin k,
            pairScore ((f i : ℕ) : ℚ) ((g j : ℕ) : ℚ) :=
          Finset.sum_congr rfl (fun i _ =>
            Finset.sum_congr rfl (fun f _ => Finset.sum_comm))
      _ = ∑ i : Fin P, ∑ j : Fin N, ∑ f : Fin P → Fin k, ∑ g : Fin N → Fin k,
            pairScore ((f i : ℕ) : ℚ) ((g j : ℕ) : ℚ) :=
          Finset.sum_congr rfl (fun i _ => Finset.sum_comm)
  rw [hcomm,
    Finset.sum_congr rfl (fun i _ => Finset.sum_congr rfl
      (fun j _ => sum_pairScore_uniform P N k i j))]
  simp only [Finset.sum_const, Finset.card_univ, Fintype.card_fin, nsmul_eq_mul]
  field_simp
  ring

/-- C7: sanity properties of the ROC-AUC statistic the notebook evaluates
with: whenever both classes are present, a predictor ranking every
positive sample strictly above every negative sample achieves ROC-AUC
exactly 1, and a predictor whose scores are independent uniformly random
achieves ROC-AUC 1/2 in expectation — approximately 0.5. -/
theorem C7_roc_auc_sanity :
    (∀ pos neg : List ℚ, pos ≠ [] → neg ≠ [] →
      (∀ p ∈ pos, ∀ n ∈ neg, n < p) → rocAuc pos neg = 1) ∧
    (∀ P N k : ℕ, 0 < P → 0 < N → 0 < k → expAuc P N k = 1 / 2) :=
  ⟨rocAuc_perfect, expAuc_eq_half⟩

/-- Witness for C7: a two-sample perfect predictor and the expected AUC of
binary uniform scores on one positive and one negative sample. -/
theorem C7_witness : rocAuc [1] [0] = 1 ∧ expAuc 1 1 2 = 1 / 2 :=
  ⟨C7_roc_auc_sanity.1 [1] [0] (by decide) (by decide)
      (by intro p hp n hn; simp at hp hn; rw [hp, hn]; norm_num),
    C7_roc_auc_sanity.2 1 1 2 (by decide) (by decide) (by decide)⟩

end FluShot
